import Mathlib

/-!
Shallow embedding of the SanctumWriterPro conversion scripts
(`scripts/convert_document.py` and `scripts/docling_server.py`).

The two Python files are thin adapters around an external converter
library (docling).  External effects — importing docling, filesystem
tests, the converter call, file writes — are supplied by environment
records (`CliEnv`, `ServerEnv`) whose fields return `Except String`
values: `Except.error msg` models a Python exception whose `str(e)` is
`msg`.  Python dictionaries returned to callers are modelled by the
`ConversionResult` structure with `Option` fields for keys that are
absent in some branches.
-/

/-- Python `str.split()` whitespace set (ASCII part: space, tab, LF, CR,
vertical tab, form feed; the extensions and messages in this repository
are ASCII). -/
def isPyWhitespace (c : Char) : Bool :=
  c = ' ' || c = '\t' || c = '\n' || c = '\r' || c = '\x0b' || c = '\x0c'

/-- Accumulator worker for Python `str.split()` with no separator:
runs of whitespace separate words, leading and trailing whitespace is
ignored, and no empty words are produced. -/
def pySplitAux : List Char → List Char → List String
  | [], cur => if cur.isEmpty then [] else [String.mk cur.reverse]
  | c :: cs, cur =>
    if isPyWhitespace c then
      if cur.isEmpty then pySplitAux cs []
      else String.mk cur.reverse :: pySplitAux cs []
    else pySplitAux cs (c :: cur)

/-- Python `s.split()` (no separator argument). -/
def pySplit (s : String) : List String :=
  pySplitAux s.data []

/-- Python truthiness for `x or default` on an optional string:
`None` and the empty string are falsy. -/
def pyOr (o : Option String) (d : String) : String :=
  match o with
  | none => d
  | some s => if s.isEmpty then d else s

/-- Python truthiness of an optional string (`not file.filename`). -/
def pyFalsy (o : Option String) : Bool :=
  match o with
  | none => true
  | some s => s.isEmpty

/-- `str.lower()` (ASCII case fold; the validated extensions are ASCII). -/
def pyLower (s : String) : String :=
  String.mk (s.data.map Char.toLower)

/-- Split a character list at every occurrence of `sep` (the semantics
of `str.split(sep)` for a one-character separator: empty pieces are
kept), accumulator worker. -/
def splitCharAux (sep : Char) : List Char → List Char → List String
  | [], cur => [String.mk cur.reverse]
  | c :: cs, cur =>
    if c = sep then String.mk cur.reverse :: splitCharAux sep cs []
    else splitCharAux sep cs (c :: cur)

/-- Split a string at every occurrence of the character `sep`. -/
def splitChar (sep : Char) (s : String) : List String :=
  splitCharAux sep s.data []

/-- Whether the first character of `s` is `c`. -/
def strHeadIs (c : Char) (s : String) : Bool :=
  match s.data with
  | [] => false
  | x :: _ => x = c

/-- Whether the last character of `s` is `c`. -/
def strLastIs (c : Char) (s : String) : Bool :=
  match s.data.getLast? with
  | none => false
  | some x => x = c

/-- `os.path.join(a, b)` for one join on POSIX: an absolute second
component replaces the first, otherwise a single separator is inserted. -/
def pyJoin (a b : String) : String :=
  if strHeadIs '/' b then b
  else if a.isEmpty || strLastIs '/' a then a ++ b
  else a ++ "/" ++ b

/-- `os.path.basename(p)`: everything after the last slash (empty for a
path ending in a slash). -/
def basename (p : String) : String :=
  ((splitChar '/' p).getLast?).getD ""

/-- `pathlib.PurePosixPath(p).name`: last non-empty component, with empty
and `.` components dropped as pathlib normalisation does. -/
def pathName (p : String) : String :=
  (((splitChar '/' p).filter (fun s => s ≠ "" && s ≠ ".")).getLast?).getD ""

/-- Index of the last `.` in a character list (CPython `str.rfind`),
accumulator worker. -/
def lastDotIndexAux : List Char → Nat → Option Nat → Option Nat
  | [], _, acc => acc
  | c :: cs, i, acc => lastDotIndexAux cs (i + 1) (if c = '.' then some i else acc)

/-- Index of the last `.` in a name, `none` when absent. -/
def lastDotIndex (nm : String) : Option Nat :=
  lastDotIndexAux nm.data 0 none

/-- `pathlib.PurePath.suffix` on a final component `nm`: the part from
the last dot, unless the dot is the first or the last character. -/
def pathSuffix (nm : String) : String :=
  match lastDotIndex nm with
  | none => ""
  | some i =>
    if 0 < i ∧ i < nm.data.length - 1 then String.mk (nm.data.drop i) else ""

/-- `pathlib.PurePath.stem` on a final component `nm`: the component
without its suffix. -/
def pathStem (nm : String) : String :=
  match lastDotIndex nm with
  | none => nm
  | some i =>
    if 0 < i ∧ i < nm.data.length - 1 then String.mk (nm.data.take i) else nm

/-- Metadata dictionary built by both adapters.  The JSON key of
`source` is `source_file` for file conversions and `source_url` for
`/convert-url`. -/
structure Metadata where
  title : String
  pages : Option Nat
  source : String
deriving DecidableEq

/-- The JSON-serialisable outcome of one conversion attempt.  `Option`
fields model dictionary keys that are absent in some branches: the
failure dictionaries in the Python code carry only `success` and
`error`. -/
structure ConversionResult where
  success : Bool
  markdown : Option String := none
  error : Option String := none
  metadata : Option Metadata := none
  saved_path : Option String := none
  character_count : Option Nat := none
  word_count : Option Nat := none
deriving DecidableEq

/-- The success dictionary shared by the CLI and both HTTP handlers:
`character_count` is `len(markdown_content)` and `word_count` is
`len(markdown_content.split())`. -/
def mkSuccess (markdown_content : String) (meta : Metadata)
    (saved_path : Option String) : ConversionResult :=
  { success := true
    markdown := some markdown_content
    error := none
    metadata := some meta
    saved_path := saved_path
    character_count := some markdown_content.length
    word_count := some (pySplit markdown_content).length }

/-- Environment of one CLI invocation: whether `docling` imports,
which paths exist, what the converter returns (`Except.error` models a
raised exception), the document attributes, and the outcome of
`os.makedirs` plus the output write. -/
structure CliEnv where
  doclingInstalled : Bool
  fileExists : String → Bool
  convert : String → Except String String
  docTitle : String → Option String
  docPages : String → Option Nat
  writeFile : String → String → Except String Unit

/-- `scripts/convert_document.py::convert_document`.  Order of checks is
the source order: docling import first, then path existence, then the
guarded conversion/write block whose exceptions become a generic
failure dictionary. -/
def convert_document (env : CliEnv) (input_path : String)
    (output_path : Option String) : ConversionResult :=
  if env.doclingInstalled = false then
    { success := false, error := some "Docling not installed. Run: pip install docling" }
  else if env.fileExists input_path = false then
    { success := false, error := some ("File not found: " ++ input_path) }
  else
    match env.convert input_path with
    | Except.error e => { success := false, error := some e }
    | Except.ok markdown_content =>
      let meta : Metadata :=
        { title := pyOr (env.docTitle input_path) (pathStem (pathName input_path))
          pages := env.docPages input_path
          source := basename input_path }
      match output_path with
      | none => mkSuccess markdown_content meta none
      | some op =>
        match env.writeFile op markdown_content with
        | Except.error e => { success := false, error := some e }
        | Except.ok _ => mkSuccess markdown_content meta (some op)

/-- Outcome of `__main__`: the JSON objects printed to standard output
and the process exit code. -/
structure MainOutcome where
  printed : List ConversionResult
  exitCode : Nat

/-- The `if __name__ == "__main__"` block of `convert_document.py`:
`argv` is the full `sys.argv` including the program name.  With fewer
than two entries a usage failure is printed and the exit code is 1;
otherwise the single result is printed and the exit code follows
`result["success"]`. -/
def cli_main (env : CliEnv) (argv : List String) : MainOutcome :=
  if argv.length < 2 then
    { printed := [{ success := false
                    error := some "Usage: python convert_document.py <input_file> [output_file]" }]
      exitCode := 1 }
  else
    let input_file := (argv[1]?).getD ""
    let output_file := argv[2]?
    let result := convert_document env input_file output_file
    { printed := [result], exitCode := if result.success then 0 else 1 }

/-- The fixed allow-list of `/convert` (source order). -/
def supported_extensions : List String :=
  [".pdf", ".docx", ".doc", ".pptx", ".ppt", ".xlsx", ".xls", ".html", ".htm"]

/-- An HTTP error response raised as `HTTPException(status, detail)`. -/
structure HttpError where
  status : Nat
  detail : String
deriving DecidableEq

/-- The filesystem fragment the server touches: the list of currently
existing temporary directories. -/
structure FS where
  dirs : List String
deriving DecidableEq

/-- Environment of one `/convert` or `/convert-url` request: the name
`tempfile.mkdtemp()` returns, and the effectful steps (saving the upload,
the converter, document attributes, persisting the markdown), each
returning `Except.error msg` for a raised exception. -/
structure ServerEnv where
  tempDir : String
  save : String → Except String Unit
  convert : String → Except String String
  docTitle : String → Option String
  docPages : String → Option Nat
  persist : String → String → Except String Unit

/-- The `try:` body of `/convert` after the temporary directory exists:
save the upload to `temp_dir/filename`, convert, optionally persist.
The second component records whether `get_converter()` was reached. -/
def runConvertBody (env : ServerEnv) (fname : String)
    (output_path filename : Option String) :
    Except String ConversionResult × Bool :=
  let temp_path := pyJoin env.tempDir fname
  match env.save temp_path with
  | Except.error e => (Except.error e, false)
  | Except.ok _ =>
    match env.convert temp_path with
    | Except.error e => (Except.error e, true)
    | Except.ok markdown_content =>
      let meta : Metadata :=
        { title := pyOr (env.docTitle temp_path) (pathStem (pathName fname))
          pages := env.docPages temp_path
          source := fname }
      match output_path with
      | none => (Except.ok (mkSuccess markdown_content meta none), true)
      | some op =>
        let output_filename := pyOr filename (pathStem (pathName fname) ++ ".md")
        let full_output_path := pyJoin op output_filename
        match env.persist full_output_path markdown_content with
        | Except.error e => (Except.error e, true)
        | Except.ok _ =>
          (Except.ok (mkSuccess markdown_content meta (some full_output_path)), true)

/-- Complete observable outcome of one `POST /convert` request. -/
structure ConvertOutcome where
  response : Except HttpError ConversionResult
  fs : FS
  tempDirCreated : Bool
  converterInvoked : Bool

/-- `scripts/docling_server.py::convert_document` (`POST /convert`).
Validation happens before `tempfile.mkdtemp()`; afterwards the
`try/except/finally` runs the body, maps any exception to a 500, and
unconditionally removes the temporary directory. -/
def convert_endpoint (env : ServerEnv) (fs0 : FS)
    (upload_filename output_path filename : Option String) : ConvertOutcome :=
  if pyFalsy upload_filename then
    { response := Except.error { status := 400, detail := "No filename provided" }
      fs := fs0, tempDirCreated := false, converterInvoked := false }
  else
    let fname := upload_filename.getD ""
    let ext := pyLower (pathSuffix (pathName fname))
    if ext ∈ supported_extensions then
      let fs1 : FS := { dirs := env.tempDir :: fs0.dirs }
      let body := runConvertBody env fname output_path filename
      let fs2 : FS := { dirs := fs1.dirs.filter (fun d => d ≠ env.tempDir) }
      { response :=
          match body.fst with
          | Except.ok r => Except.ok r
          | Except.error e =>
            Except.error { status := 500, detail := "Conversion failed: " ++ e }
        fs := fs2, tempDirCreated := true, converterInvoked := body.snd }
    else
      { response := Except.error
          { status := 400
            detail := "Unsupported file type: " ++ ext ++ ". Supported: "
              ++ String.intercalate ", " supported_extensions }
        fs := fs0, tempDirCreated := false, converterInvoked := false }

/-- `scripts/docling_server.py::convert_from_url` (`POST /convert-url`):
no validation, convert the URL, optionally persist, any exception
becomes a 500. -/
def convert_from_url (env : ServerEnv) (url : String)
    (output_path filename : Option String) : Except HttpError ConversionResult :=
  match env.convert url with
  | Except.error e =>
    Except.error { status := 500, detail := "Conversion failed: " ++ e }
  | Except.ok markdown_content =>
    let meta : Metadata :=
      { title := pyOr (env.docTitle url) "Document"
        pages := env.docPages url
        source := url }
    match output_path with
    | none => Except.ok (mkSuccess markdown_content meta none)
    | some op =>
      let output_filename := pyOr filename "converted.md"
      let full_output_path := pyJoin op output_filename
      match env.persist full_output_path markdown_content with
      | Except.error e =>
        Except.error { status := 500, detail := "Conversion failed: " ++ e }
      | Except.ok _ =>
        Except.ok (mkSuccess markdown_content meta (some full_output_path))

/-- Server state for the lazy converter singleton: `none` before the
first construction. -/
def ServerState : Type := Option Unit

/-- Body of `GET /health`. -/
structure HealthResponse where
  status : String
  docling : Bool
deriving DecidableEq

/-- `GET /health`: a static 200 payload, returning the server state
unchanged. -/
def health (s : ServerState) : (Nat × HealthResponse) × ServerState :=
  ((200, { status := "healthy", docling := true }), s)

/-- A CLI environment in which docling imports, every path exists and
conversion succeeds. -/
def cenvOk : CliEnv :=
  { doclingInstalled := true, fileExists := fun _ => true
    convert := fun _ => Except.ok "# Hello world", docTitle := fun _ => none
    docPages := fun _ => none, writeFile := fun _ _ => Except.ok () }

/-- A CLI environment in which docling imports but no path exists. -/
def cenvMissing : CliEnv :=
  { cenvOk with fileExists := fun _ => false }

/-- A CLI environment in which docling cannot be imported and no path
exists. -/
def cenvNoDocling : CliEnv :=
  { cenvMissing with doclingInstalled := false }

/-- A CLI environment whose converter exports the empty string. -/
def cenvEmptyMd : CliEnv :=
  { cenvOk with convert := fun _ => Except.ok "" }

/-- A server environment in which every step succeeds. -/
def senvOk : ServerEnv :=
  { tempDir := "/tmp/tmpabc123", save := fun _ => Except.ok ()
    convert := fun _ => Except.ok "# Hello world", docTitle := fun _ => none
    docPages := fun _ => none, persist := fun _ _ => Except.ok () }

/-- A server environment whose converter exports the empty string. -/
def senvEmptyMd : ServerEnv :=
  { senvOk with convert := fun _ => Except.ok "" }

/-- An empty filesystem fragment. -/
def fsEmpty : FS := { dirs := [] }

/-- Every result the CLI `convert_document` returns is either one of
its failure dictionaries (`success, error` only) or the success
dictionary `mkSuccess`. -/
theorem convert_document_shape (env : CliEnv) (p : String) (op : Option String) :
    (∃ e, convert_document env p op = { success := false, error := some e }) ∨
    ∃ md meta sp, convert_document env p op = mkSuccess md meta sp := by
  unfold convert_document
  split
  · exact Or.inl ⟨_, rfl⟩
  split
  · exact Or.inl ⟨_, rfl⟩
  split
  · exact Or.inl ⟨_, rfl⟩
  split
  · exact Or.inr ⟨_, _, _, rfl⟩
  split
  · exact Or.inl ⟨_, rfl⟩
  · exact Or.inr ⟨_, _, _, rfl⟩

/-- A successful CLI result is the success dictionary built from the
converter's exported markdown. -/
theorem convert_document_success (env : CliEnv) (p : String) (op : Option String)
    (h : (convert_document env p op).success = true) :
    ∃ md meta sp, env.convert p = Except.ok md ∧
      convert_document env p op = mkSuccess md meta sp := by
  by_cases h1 : env.doclingInstalled = false
  · simp [convert_document, h1] at h
  by_cases h2 : env.fileExists p = false
  · simp [convert_document, h1, h2] at h
  rcases h3 : env.convert p with e | md
  · simp [convert_document, h1, h2, h3] at h
  rcases op with _ | opv
  · exact ⟨md,
      { title := pyOr (env.docTitle p) (pathStem (pathName p))
        pages := env.docPages p, source := basename p }, none, rfl,
      by simp [convert_document, h1, h2, h3]⟩
  rcases h4 : env.writeFile opv md with e | u
  · simp [convert_document, h1, h2, h3, h4] at h
  · exact ⟨md,
      { title := pyOr (env.docTitle p) (pathStem (pathName p))
        pages := env.docPages p, source := basename p }, some opv, rfl,
      by simp [convert_document, h1, h2, h3, h4]⟩

/-- A `.ok` value of the `/convert` body is the success dictionary built
from the converter's exported markdown for the saved temporary path. -/
theorem runConvertBody_ok (env : ServerEnv) (f : String)
    (op fn : Option String) (r : ConversionResult)
    (h : (runConvertBody env f op fn).fst = Except.ok r) :
    ∃ md meta sp, env.convert (pyJoin env.tempDir f) = Except.ok md ∧
      r = mkSuccess md meta sp := by
  rcases h1 : env.save (pyJoin env.tempDir f) with e | u
  · simp [runConvertBody, h1] at h
  rcases h2 : env.convert (pyJoin env.tempDir f) with e | md
  · simp [runConvertBody, h1, h2] at h
  rcases op with _ | opv
  · simp [runConvertBody, h1, h2] at h
    exact ⟨md, _, none, rfl, h.symm⟩
  rcases h3 : env.persist (pyJoin opv (pyOr fn (pathStem (pathName f) ++ ".md"))) md with e | u2
  · simp [runConvertBody, h1, h2, h3] at h
  · simp [runConvertBody, h1, h2, h3] at h
    exact ⟨md, _, _, rfl, h.symm⟩

/-- A `.ok` response of `POST /convert` is the success dictionary built
from the converter's exported markdown. -/
theorem convert_endpoint_ok (env : ServerEnv) (fs : FS)
    (uf opath fname : Option String) (r : ConversionResult)
    (h : (convert_endpoint env fs uf opath fname).response = Except.ok r) :
    ∃ md meta sp, env.convert (pyJoin env.tempDir (uf.getD "")) = Except.ok md ∧
      r = mkSuccess md meta sp := by
  by_cases h1 : pyFalsy uf = true
  · simp [convert_endpoint, h1] at h
  by_cases h2 : pyLower (pathSuffix (pathName (uf.getD ""))) ∈ supported_extensions
  · rcases h3 : (runConvertBody env (uf.getD "") opath fname).fst with e | r0
    · simp [convert_endpoint, h1, h2, h3] at h
    · simp [convert_endpoint, h1, h2, h3] at h
      exact h ▸ runConvertBody_ok env _ opath fname r0 h3
  · simp [convert_endpoint, h1, h2] at h

/-- A `.ok` response of `POST /convert-url` is the success dictionary
built from the converter's exported markdown for the URL. -/
theorem convert_from_url_ok (env : ServerEnv) (url : String)
    (opath fname : Option String) (r : ConversionResult)
    (h : convert_from_url env url opath fname = Except.ok r) :
    ∃ md meta sp, env.convert url = Except.ok md ∧ r = mkSuccess md meta sp := by
  rcases h1 : env.convert url with e | md
  · simp [convert_from_url, h1] at h
  rcases opath with _ | opv
  · simp [convert_from_url, h1] at h
    exact ⟨md, _, none, rfl, h.symm⟩
  rcases h2 : env.persist (pyJoin opv (pyOr fname "converted.md")) md with e | u
  · simp [convert_from_url, h1, h2] at h
  · simp [convert_from_url, h1, h2] at h
    exact ⟨md, _, _, rfl, h.symm⟩

/-- Bridge from the decidable `toOption` view of a response to the
`Except.ok` equation. -/
theorem response_ok_of_toOption (x : Except HttpError ConversionResult)
    (r : ConversionResult) (h : x.toOption = some r) : x = Except.ok r := by
  cases x
  · simp [Except.toOption] at h
  · simp [Except.toOption] at h
    rw [h]

/-- C1: for every ConversionResult produced by the CLI `convert_document`
or the HTTP `/convert` and `/convert-url` handlers, exactly one of
`markdown` and `error` is present: success=true comes with `markdown` and
no `error`, success=false with `error` and no `markdown`.  (The HTTP
handlers report failures as HTTPExceptions, so every ConversionResult
they return has success=true.) -/
theorem C1_exactly_one_of_markdown_error
    (cenv : CliEnv) (p : String) (op : Option String)
    (senv : ServerEnv) (fs : FS) (uf opath fname : Option String) (url : String) :
    (((convert_document cenv p op).success = true →
        ((convert_document cenv p op).markdown).isSome = true ∧
        (convert_document cenv p op).error = none) ∧
      ((convert_document cenv p op).success = false →
        ((convert_document cenv p op).error).isSome = true ∧
        (convert_document cenv p op).markdown = none)) ∧
    (∀ r, (convert_endpoint senv fs uf opath fname).response = Except.ok r →
        r.success = true ∧ r.markdown.isSome = true ∧ r.error = none) ∧
    (∀ r, convert_from_url senv url opath fname = Except.ok r →
        r.success = true ∧ r.markdown.isSome = true ∧ r.error = none) := by
  refine ⟨⟨?_, ?_⟩, ?_, ?_⟩
  · intro hs
    obtain ⟨md, meta, sp, _, he⟩ := convert_document_success cenv p op hs
    rw [he]
    simp [mkSuccess]
  · intro hs
    rcases convert_document_shape cenv p op with ⟨e, he⟩ | ⟨md, meta, sp, he⟩
    · rw [he]
      simp
    · rw [he] at hs
      simp [mkSuccess] at hs
  · intro r hr
    obtain ⟨md, meta, sp, _, he⟩ := convert_endpoint_ok senv fs uf opath fname r hr
    rw [he]
    simp [mkSuccess]
  · intro r hr
    obtain ⟨md, meta, sp, _, he⟩ := convert_from_url_ok senv url opath fname r hr
    rw [he]
    simp [mkSuccess]

/-- Witness for C1 at concrete inputs: a successful CLI result has
markdown and no error, a failed CLI result has an error and no markdown,
and a successful `/convert` response has success=true with markdown. -/
theorem C1_witness :
    ((convert_document cenvOk "doc.pdf" none).markdown).isSome = true ∧
    (convert_document cenvOk "doc.pdf" none).error = none ∧
    ((convert_document cenvMissing "doc.pdf" none).error).isSome = true ∧
    (convert_document cenvMissing "doc.pdf" none).markdown = none ∧
    (mkSuccess "# Hello world"
      { title := "doc", pages := none, source := "doc.pdf" } none).error = none := by
  have hA := C1_exactly_one_of_markdown_error cenvOk "doc.pdf" none
    senvOk fsEmpty (some "doc.pdf") none none "https://x"
  have hB := C1_exactly_one_of_markdown_error cenvMissing "doc.pdf" none
    senvOk fsEmpty (some "doc.pdf") none none "https://x"
  exact ⟨(hA.1.1 (by decide)).1, (hA.1.1 (by decide)).2,
    (hB.1.2 (by decide)).1, (hB.1.2 (by decide)).2,
    (hA.2.1 (mkSuccess "# Hello world"
      { title := "doc", pages := none, source := "doc.pdf" } none)
      (response_ok_of_toOption _ _ (by decide))).2.2⟩

/-- C2: whenever a `POST /convert` request passes extension validation
(so the temporary directory is created), that directory no longer exists
once the handler completes — the `finally` removal runs on the success
path and on every exception path alike. -/
theorem C2_temp_dir_removed (env : ServerEnv) (fs : FS)
    (uf opath fname : Option String)
    (h : (convert_endpoint env fs uf opath fname).tempDirCreated = true) :
    env.tempDir ∉ ((convert_endpoint env fs uf opath fname).fs).dirs := by
  by_cases h1 : pyFalsy uf = true
  · simp [convert_endpoint, h1] at h
  by_cases h2 : pyLower (pathSuffix (pathName (uf.getD ""))) ∈ supported_extensions
  · simp [convert_endpoint, h1, h2, List.mem_filter]
  · simp [convert_endpoint, h1, h2] at h

/-- Witness for C2 at a concrete request: validation passes, the
temporary directory is created, and it is absent from the filesystem
after the handler completes. -/
theorem C2_witness :
    (convert_endpoint senvOk fsEmpty (some "doc.pdf") none none).tempDirCreated = true ∧
    senvOk.tempDir ∉ ((convert_endpoint senvOk fsEmpty (some "doc.pdf") none none).fs).dirs :=
  ⟨by decide, C2_temp_dir_removed senvOk fsEmpty (some "doc.pdf") none none (by decide)⟩

/-- C3: a `POST /convert` upload with a falsy filename, or whose
extension is not on the allow-list (compared after lowercasing, see C9),
is answered with a 400-class error and the converter is never invoked. -/
theorem C3_invalid_upload_rejected (env : ServerEnv) (fs : FS)
    (uf opath fname : Option String)
    (h : pyFalsy uf = true ∨
      pyLower (pathSuffix (pathName (uf.getD ""))) ∉ supported_extensions) :
    ∃ e, (convert_endpoint env fs uf opath fname).response = Except.error e ∧
      400 ≤ e.status ∧ e.status < 500 ∧
      (convert_endpoint env fs uf opath fname).converterInvoked = false := by
  rcases h with h1 | h2
  · refine ⟨{ status := 400, detail := "No filename provided" }, ?_, ?_, ?_, ?_⟩
    · simp [convert_endpoint, h1]
    · norm_num
    · norm_num
    · simp [convert_endpoint, h1]
  · by_cases h1 : pyFalsy uf = true
    · refine ⟨{ status := 400, detail := "No filename provided" }, ?_, ?_, ?_, ?_⟩
      · simp [convert_endpoint, h1]
      · norm_num
      · norm_num
      · simp [convert_endpoint, h1]
    · refine ⟨{ status := 400,
                detail := "Unsupported file type: "
                  ++ pyLower (pathSuffix (pathName (uf.getD ""))) ++ ". Supported: "
                  ++ String.intercalate ", " supported_extensions }, ?_, ?_, ?_, ?_⟩
      · simp [convert_endpoint, h1, h2]
      · norm_num
      · norm_num
      · simp [convert_endpoint, h1, h2]

/-- Witness for C3 at a concrete unsupported upload (`notes.txt`). -/
theorem C3_witness :
    (pyFalsy (some "notes.txt") = true ∨
      pyLower (pathSuffix (pathName "notes.txt")) ∉ supported_extensions) ∧
    ∃ e, (convert_endpoint senvOk fsEmpty (some "notes.txt") none none).response =
        Except.error e ∧
      400 ≤ e.status ∧ e.status < 500 ∧
      (convert_endpoint senvOk fsEmpty (some "notes.txt") none none).converterInvoked = false :=
  ⟨Or.inr (by decide),
    C3_invalid_upload_rejected senvOk fsEmpty (some "notes.txt") none none
      (Or.inr (by decide))⟩

/-- C4: when docling imports but the input path does not exist, the CLI
returns success=false with an error message that contains the path
(`"File not found: " ++ path`). -/
theorem C4_missing_input_reported (env : CliEnv) (p : String) (op : Option String)
    (h1 : env.doclingInstalled = true) (h2 : env.fileExists p = false) :
    (convert_document env p op).success = false ∧
    ∃ a b, (convert_document env p op).error = some (a ++ p ++ b) := by
  have h1x : ¬env.doclingInstalled = false := by simp [h1]
  refine ⟨by simp [convert_document, h1x, h2], "File not found: ", "", ?_⟩
  simp [convert_document, h1x, h2]

/-- Witness for C4 at the concrete missing path `/no/such.pdf`. -/
theorem C4_witness :
    cenvMissing.doclingInstalled = true ∧
    cenvMissing.fileExists "/no/such.pdf" = false ∧
    ((convert_document cenvMissing "/no/such.pdf" none).success = false ∧
     ∃ a b, (convert_document cenvMissing "/no/such.pdf" none).error =
       some (a ++ "/no/such.pdf" ++ b)) :=
  ⟨rfl, rfl, C4_missing_input_reported cenvMissing "/no/such.pdf" none rfl rfl⟩

/-- C5: every successful result of the CLI, of `POST /convert` and of
`POST /convert-url` has `character_count` equal to the length of the
returned markdown text and `word_count` equal to the number of pieces of
its whitespace split. -/
theorem C5_counts_match_markdown
    (cenv : CliEnv) (p : String) (op : Option String)
    (senv : ServerEnv) (fs : FS) (uf opath fname : Option String) (url : String) :
    ((convert_document cenv p op).success = true →
       (convert_document cenv p op).character_count =
         some (((convert_document cenv p op).markdown).getD "").length ∧
       (convert_document cenv p op).word_count =
         some (pySplit (((convert_document cenv p op).markdown).getD "")).length) ∧
    (∀ r, (convert_endpoint senv fs uf opath fname).response = Except.ok r →
       r.character_count = some ((r.markdown.getD "").length) ∧
       r.word_count = some (pySplit (r.markdown.getD "")).length) ∧
    (∀ r, convert_from_url senv url opath fname = Except.ok r →
       r.character_count = some ((r.markdown.getD "").length) ∧
       r.word_count = some (pySplit (r.markdown.getD "")).length) := by
  refine ⟨?_, ?_, ?_⟩
  · intro hs
    obtain ⟨md, meta, sp, _, he⟩ := convert_document_success cenv p op hs
    rw [he]
    simp [mkSuccess]
  · intro r hr
    obtain ⟨md, meta, sp, _, he⟩ := convert_endpoint_ok senv fs uf opath fname r hr
    rw [he]
    simp [mkSuccess]
  · intro r hr
    obtain ⟨md, meta, sp, _, he⟩ := convert_from_url_ok senv url opath fname r hr
    rw [he]
    simp [mkSuccess]

/-- Witness for C5 at a concrete successful CLI conversion:
`"# Hello world"` has 13 characters and 3 whitespace-separated words. -/
theorem C5_witness :
    ((convert_document cenvOk "doc.pdf" none).character_count =
       some (((convert_document cenvOk "doc.pdf" none).markdown).getD "").length ∧
     (convert_document cenvOk "doc.pdf" none).word_count =
       some (pySplit (((convert_document cenvOk "doc.pdf" none).markdown).getD "")).length) ∧
    (convert_document cenvOk "doc.pdf" none).character_count = some 13 ∧
    (convert_document cenvOk "doc.pdf" none).word_count = some 3 :=
  ⟨(C5_counts_match_markdown cenvOk "doc.pdf" none
      senvOk fsEmpty (some "doc.pdf") none none "https://x").1 (by decide),
    by decide, by decide⟩

/-- C6 counterexample: neither adapter checks that the exported markdown
is non-empty.  With a converter whose export is the empty string, the
CLI result and the `/convert` response both have success=true and
`markdown` equal to the empty string, refuting "markdown is non-empty
text whenever success=true". -/
theorem C6_counterexample :
    (convert_document cenvEmptyMd "doc.pdf" none).success = true ∧
    (convert_document cenvEmptyMd "doc.pdf" none).markdown = some "" ∧
    ((convert_endpoint senvEmptyMd fsEmpty (some "doc.pdf") none none).response).toOption =
      some (mkSuccess "" { title := "doc", pages := none, source := "doc.pdf" } none) ∧
    (mkSuccess "" { title := "doc", pages := none, source := "doc.pdf" } none).markdown =
      some "" := by
  refine ⟨by decide, by decide, by decide, by decide⟩

/-- C6 (amended): whenever a result of the CLI, `/convert` or
`/convert-url` has success=true, its `markdown` field is exactly the
text the converter exported — non-empty precisely when that export is
non-empty; the adapters themselves do not enforce non-emptiness. -/
theorem C6_markdown_is_converter_export
    (cenv : CliEnv) (p : String) (op : Option String)
    (senv : ServerEnv) (fs : FS) (uf opath fname : Option String) (url : String) :
    ((convert_document cenv p op).success = true →
       ∃ md, cenv.convert p = Except.ok md ∧
         (convert_document cenv p op).markdown = some md ∧
         (md ≠ "" → (convert_document cenv p op).markdown ≠ some "")) ∧
    (∀ r, (convert_endpoint senv fs uf opath fname).response = Except.ok r →
       ∃ md, senv.convert (pyJoin senv.tempDir (uf.getD "")) = Except.ok md ∧
         r.markdown = some md ∧ (md ≠ "" → r.markdown ≠ some "")) ∧
    (∀ r, convert_from_url senv url opath fname = Except.ok r →
       ∃ md, senv.convert url = Except.ok md ∧
         r.markdown = some md ∧ (md ≠ "" → r.markdown ≠ some "")) := by
  refine ⟨?_, ?_, ?_⟩
  · intro hs
    obtain ⟨md, meta, sp, hc, he⟩ := convert_document_success cenv p op hs
    refine ⟨md, hc, by rw [he]; simp [mkSuccess], ?_⟩
    intro hne hcon
    rw [he] at hcon
    simp [mkSuccess] at hcon
    exact hne hcon
  · intro r hr
    obtain ⟨md, meta, sp, hc, he⟩ := convert_endpoint_ok senv fs uf opath fname r hr
    refine ⟨md, hc, by rw [he]; simp [mkSuccess], ?_⟩
    intro hne hcon
    rw [he] at hcon
    simp [mkSuccess] at hcon
    exact hne hcon
  · intro r hr
    obtain ⟨md, meta, sp, hc, he⟩ := convert_from_url_ok senv url opath fname r hr
    refine ⟨md, hc, by rw [he]; simp [mkSuccess], ?_⟩
    intro hne hcon
    rw [he] at hcon
    simp [mkSuccess] at hcon
    exact hne hcon

/-- Witness for the amended C6 at a concrete successful CLI conversion
whose exported markdown is non-empty. -/
theorem C6_witness :
    ∃ md, cenvOk.convert "doc.pdf" = Except.ok md ∧
      (convert_document cenvOk "doc.pdf" none).markdown = some md ∧
      (md ≠ "" → (convert_document cenvOk "doc.pdf" none).markdown ≠ some "") :=
  (C6_markdown_is_converter_export cenvOk "doc.pdf" none
    senvOk fsEmpty (some "doc.pdf") none none "https://x").1 (by decide)

/-- C7: `GET /health` returns status 200 with body
`{status: "healthy", docling: true}` and leaves the server state — in
particular a not-yet-constructed lazy converter — unchanged. -/
theorem C7_health_static (s : ServerState) :
    health s = ((200, { status := "healthy", docling := true }), s) := rfl

/-- C8: every CLI invocation prints exactly one JSON object and exits
with code 0 when that object has success=true and code 1 otherwise,
the missing-argument usage failure included. -/
theorem C8_one_object_and_exit_code (env : CliEnv) (argv : List String) :
    ∃ r, (cli_main env argv).printed = [r] ∧
      (cli_main env argv).exitCode = if r.success = true then 0 else 1 := by
  by_cases h : argv.length < 2
  · refine ⟨{ success := false
              error := some "Usage: python convert_document.py <input_file> [output_file]" },
      ?_, ?_⟩
    · simp [cli_main, h]
    · simp [cli_main, h]
  · exact ⟨convert_document env ((argv[1]?).getD "") argv[2]?,
      by simp [cli_main, h], by simp [cli_main, h]⟩

/-- C9: `/convert` extension validation is case-insensitive: any upload
whose lowercased extension is on the allow-list passes validation (the
temporary directory is created and the request proceeds), even when the
raw extension — such as `.PDF` — is not literally on the list. -/
theorem C9_extension_case_insensitive (env : ServerEnv) (fs : FS)
    (uf : String) (opath fname : Option String)
    (h1 : uf.isEmpty = false)
    (h2 : pyLower (pathSuffix (pathName uf)) ∈ supported_extensions) :
    (convert_endpoint env fs (some uf) opath fname).tempDirCreated = true := by
  have h1x : ¬pyFalsy (some uf) = true := by simp [pyFalsy, h1]
  simp [convert_endpoint, h1x, h2]

/-- Witness for C9 at the concrete filename `doc.PDF`: its raw extension
is not on the allow-list, yet the upload passes validation. -/
theorem C9_witness :
    pathSuffix (pathName "doc.PDF") ∉ supported_extensions ∧
    (convert_endpoint senvOk fsEmpty (some "doc.PDF") none none).tempDirCreated = true :=
  ⟨by decide,
    C9_extension_case_insensitive senvOk fsEmpty "doc.PDF" none none (by decide) (by decide)⟩

/-- C10: the CLI checks the docling import before the input-path
existence check: whenever docling cannot be loaded the result is the
DependencyMissing failure, for every input path — including paths that
do not exist. -/
theorem C10_dependency_check_first (env : CliEnv) (p : String) (op : Option String)
    (h : env.doclingInstalled = false) :
    convert_document env p op =
      { success := false
        error := some "Docling not installed. Run: pip install docling" } := by
  simp [convert_document, h]

/-- Witness for C10 at a concrete environment without docling and a
path that does not exist: the result is still the DependencyMissing
failure, not the NotFound one. -/
theorem C10_witness :
    cenvNoDocling.doclingInstalled = false ∧
    cenvNoDocling.fileExists "/no/such.pdf" = false ∧
    convert_document cenvNoDocling "/no/such.pdf" none =
      { success := false
        error := some "Docling not installed. Run: pip install docling" } :=
  ⟨rfl, rfl, C10_dependency_check_first cenvNoDocling "/no/such.pdf" none rfl⟩
